import Mathlib

/-!
Verification of the interactive Joplin console browser
(src/joplin-console.py) against its natural-language specification.

The Python source is shallowly embedded: database rows become Lean
structures, SQL queries become list operations (with ORDER BY modelled by
an insertion sort on the ordering column), the navigation loop state
becomes an explicit record, and filesystem effects of the exporter become
an explicit list of operations.  All definitions are executable so that
concrete scenarios evaluate by kernel reduction.
-/

namespace JoplinConsole

/-! ## String helpers

Lean core string order and case functions do not reduce well inside the
kernel, so the Python string primitives used by the source are embedded
directly over the underlying character lists. -/

/-- Byte-wise lexicographic comparison on character lists; used to model
the SQL ORDER BY collation on text columns. -/
def char_list_le : List Char → List Char → Bool
  | [], _ => true
  | _ :: _, [] => false
  | a :: as, b :: bs => if a = b then char_list_le as bs else decide (a < b)

/-- String comparison used by the modelled ORDER BY clauses. -/
def str_le (a b : String) : Bool := char_list_le a.data b.data

/-- Python str.startswith: the candidate token is a leading run of the
full identifier. -/
def str_starts_with (s pre : String) : Bool := List.isPrefixOf pre.data s.data

/-- Python membership test c in s for a single character. -/
def str_contains (s : String) (c : Char) : Bool := s.data.contains c

/-- Python str.lower, restricted to the character-wise mapping. -/
def str_lower (s : String) : String := ⟨s.data.map Char.toLower⟩

/-- Python s[:n] on strings (used to display 8-character id abbreviations). -/
def str_take (s : String) (n : Nat) : String := ⟨s.data.take n⟩

/-- Python truthiness coalescing x or d for an optional string: None and
the empty string are both falsy. -/
def py_str_or (x : Option String) (d : String) : String :=
  match x with
  | none => d
  | some s => if s = "" then d else s

/-- Python s.split(sep, 1) on the character level: everything before the
first slash, and everything after it. -/
def split_slash_aux : List Char → List Char × List Char
  | [] => ([], [])
  | c :: cs =>
    if c = '/' then ([], cs)
    else
      let p := split_slash_aux cs
      (c :: p.1, p.2)

/-- Python note_id.split('/', 1) specialised to the slash separator. -/
def split_slash (s : String) : String × String :=
  let p := split_slash_aux s.data
  (⟨p.1⟩, ⟨p.2⟩)

/-! ## Data model

Rows of the Joplin SQLite database as consumed by src/joplin-console.py.
Nullable columns are Option-valued. -/

/-- A row of the folders table: id, title, parent_id (empty string marks a
root-level folder). -/
structure Folder where
  id : String
  title : String
  parent_id : String
deriving DecidableEq, Repr

/-- A row of the notes table, restricted to the columns the program reads. -/
structure Note where
  id : String
  title : String
  body : Option String
  parent_id : String
  created_time : Option Int
  updated_time : Option Int
deriving DecidableEq, Repr

/-- A row of the resources table, restricted to the columns the program
reads. -/
structure Resource where
  id : String
  title : String
  filename : Option String
  mime : Option String
deriving DecidableEq, Repr

/-- The database as seen through the JoplinDB query layer: base tables
plus the note_tags and note_resources join tables. -/
structure DB where
  folders : List Folder
  notes : List Note
  tags : List (String × String)
  note_tags : List (String × String)
  resources : List Resource
  note_resources : List (String × String)
deriving Repr

/-! ## Sorting (SQL ORDER BY) -/

/-- Insert into a list sorted by a string key. -/
def insert_sorted {α : Type} (key : α → String) (x : α) : List α → List α
  | [] => [x]
  | y :: ys => if str_le (key x) (key y) then x :: y :: ys else y :: insert_sorted key x ys

/-- Insertion sort by a string key; models ORDER BY on a text column. -/
def sort_by_key {α : Type} (key : α → String) : List α → List α
  | [] => []
  | x :: xs => insert_sorted key x (sort_by_key key xs)

/-! ## JoplinDB query layer (src lines 238 to 291) -/

/-- The parent_id value a folder query filters on: the empty string for
root level (Joplin root marker), else the given folder id. -/
def parent_key : Option String → String
  | none => ""
  | some pid => pid

/-- JoplinDB.get_folders: folders with the given parent (root-level
folders when no parent is given), ORDER BY title. -/
def get_folders (db : DB) (parent_id : Option String) : List Folder :=
  match parent_id with
  | none => sort_by_key (fun f => f.title) (db.folders.filter (fun f => f.parent_id = ""))
  | some pid => sort_by_key (fun f => f.title) (db.folders.filter (fun f => f.parent_id = pid))

/-- JoplinDB.get_note: SELECT * FROM notes WHERE id = ?, first row or None. -/
def get_note (db : DB) (note_id : String) : Option Note :=
  db.notes.find? (fun n => n.id = note_id)

/-- JoplinDB.get_notes_in_folder: notes with the given parent folder,
ORDER BY title. -/
def get_notes_in_folder (db : DB) (folder_id : String) : List Note :=
  sort_by_key (fun n => n.title) (db.notes.filter (fun n => n.parent_id = folder_id))

/-- JoplinDB.get_tags_for_note: titles of tags joined through note_tags,
ORDER BY tag title. -/
def get_tags_for_note (db : DB) (note_id : String) : List String :=
  sort_by_key id
    ((db.note_tags.filter (fun nt => nt.1 = note_id)).filterMap
      (fun nt => (db.tags.find? (fun t => t.1 = nt.2)).map (fun t => t.2)))

/-- JoplinDB.get_resources_for_note: resources joined through
note_resources, ORDER BY resource title. -/
def get_resources_for_note (db : DB) (note_id : String) : List Resource :=
  sort_by_key (fun r => r.title)
    ((db.note_resources.filter (fun nr => nr.1 = note_id)).filterMap
      (fun nr => db.resources.find? (fun r => r.id = nr.2)))

/-! ## Navigation (interactive_browser, src lines 490 to 589) -/

/-- The session navigation state: the optional current folder id and the
back-stack list used by cd .. (Python appends and pops at the list end). -/
structure NavState where
  current : Option String
  history : List String
deriving DecidableEq, Repr

/-- Messages the cd command prints; the ambiguous case carries the full
candidate list that is displayed. -/
inductive CdMsg
  | backParent
  | backRoot
  | toRoot
  | usage
  | entered (title : String)
  | ambiguous (cands : List Folder)
  | notFound
deriving DecidableEq, Repr

/-- The lines printed for a cd message; the ambiguous case shows the
8-character id abbreviation and the title of every candidate. -/
def cd_msg_lines : CdMsg → List String
  | .backParent => ["Going back to parent folder"]
  | .backRoot => ["Going back to root level"]
  | .toRoot => ["Going to root level"]
  | .usage => ["Usage: cd <folder-id>, cd .., or cd /"]
  | .entered t => ["Entered: " ++ t]
  | .ambiguous cs =>
      "Ambiguous ID - matches:" ::
        cs.map (fun c => "  [" ++ str_take c.id 8 ++ "] " ++ c.title)
  | .notFound => ["Folder not found."]

/-- The cd command (src lines 557 to 589).  For .. the back-stack top is
popped (Python history.pop removes the last element); for / the current
folder is pushed and current cleared; otherwise the argument is matched as
an id run against the direct children of the current location. -/
def cd_command (db : DB) (st : NavState) (arg : String) : NavState × CdMsg :=
  if arg = ".." then
    match st.history.getLast? with
    | some fid => (⟨some fid, st.history.dropLast⟩, .backParent)
    | none => (⟨none, st.history⟩, .backRoot)
  else if arg = "/" then
    match st.current with
    | some c => (⟨none, st.history ++ [c]⟩, .toRoot)
    | none => (⟨none, st.history⟩, .toRoot)
  else if arg = "" then (st, .usage)
  else
    let candidates := (get_folders db st.current).filter (fun f => str_starts_with f.id arg)
    match candidates with
    | [c] =>
      (⟨some c.id,
        match st.current with
        | some cur => st.history ++ [cur]
        | none => st.history⟩, .entered c.title)
    | [] => (st, .notFound)
    | cs => (st, .ambiguous cs)

/-- The prompt construction loop (src lines 497 to 506): walk parent_id
links starting from the current folder id, looking each id up among the
ROOT-LEVEL folders returned by db.get_folders(); a failed lookup breaks
out of the loop.  The fuel argument makes the while loop a total
function; path_walk_fuel_irrelevant below shows any positive fuel gives
the same answer, so the loop terminates. -/
def path_walk (db : DB) : Nat → String → List String
  | 0, _ => []
  | Nat.succ k, fid =>
    if fid = "" then []
    else
      match (get_folders db none).find? (fun f => f.id = fid) with
      | none => []
      | some folder => folder.title :: path_walk db k folder.parent_id

/-- The path parts shown in the prompt, in root-to-current order (Python
builds the list current-first and reverses it).  A missing current folder
id is the empty string, which ends the walk at once. -/
def prompt_parts (db : DB) (cur : Option String) : List String :=
  (path_walk db (db.folders.length + 1) (cur.getD "")).reverse

/-- The rendered prompt: slash-joined path parts, or (root) when empty. -/
def prompt_string (db : DB) (cur : Option String) : String :=
  match prompt_parts db cur with
  | [] => "(root)"
  | parts => String.intercalate "/" parts

/-- Follows the WORDS OF THE SPEC, for comparison with the code above:
currentPath walks parent_id links from current to a root over ALL folders,
and treats a missing or revisited (cyclic) ancestor as an error, returning
none instead of looping. -/
def spec_path_walk (db : DB) : Nat → List String → String → Option (List String)
  | 0, _, _ => none
  | Nat.succ k, visited, fid =>
    if fid = "" then some []
    else if visited.contains fid then none
    else
      match db.folders.find? (fun f => f.id = fid) with
      | none => none
      | some f => (spec_path_walk db k (fid :: visited) f.parent_id).map (fun rest => rest ++ [f.title])

/-- Follows the WORDS OF THE SPEC: the ordered folder titles from a root
down to the current folder, or none on corruption. -/
def spec_currentPath (db : DB) (fid : String) : Option (List String) :=
  spec_path_walk db (db.folders.length + 1) [] fid

/-! ## Note resolution (find_note_in_context, src lines 594 to 640) -/

/-- The outcome of find_note_in_context together with the message it
prints; every constructor except found makes the caller print and return
to the prompt without a note. -/
inductive FindResult
  | found (n : Note)
  | notebookNotFound
  | noteNotFoundInNotebook
  | ambiguousNote (ns : List Note)
  | notFound
deriving DecidableEq, Repr

/-- The note part of a qualified lookup: match the note token against the
ids of the notes inside the already-resolved notebook folder, with the
one, many, zero reporting policy (src lines 610 to 622). -/
def note_lookup_in_folder (db : DB) (folder : Folder) (note_tok : String) : FindResult :=
  let matching := (get_notes_in_folder db folder.id).filter (fun n => str_starts_with n.id note_tok)
  match matching with
  | [n] => .found n
  | [] => .noteNotFoundInNotebook
  | ns => .ambiguousNote ns

/-- The notebook-qualified branch of find_note_in_context (src lines 596
to 622): the notebook token is matched against db.get_folders(), which
returns the ROOT-LEVEL folders, and Python next(...) takes the FIRST
match in that title-ordered list.  (The get_note call on the notebook
token at src line 600 binds an unused variable and is omitted.) -/
def qualified_lookup (db : DB) (notebook_tok note_tok : String) : FindResult :=
  match (get_folders db none).find? (fun f => str_starts_with f.id notebook_tok) with
  | none => .notebookNotFound
  | some notebook_folder => note_lookup_in_folder db notebook_folder note_tok

/-- find_note_in_context (src lines 594 to 640).  A token containing a
slash is treated as notebook-token/note-token.  A bare token is first
looked up as an exact full note id anywhere in the database; only if that
fails and a folder is active is it matched as an id run against the notes
of that folder. -/
def find_note_in_context (db : DB) (current : Option String) (tok : String) : FindResult :=
  if str_contains tok '/' then
    let p := split_slash tok
    qualified_lookup db p.1 p.2
  else
    match get_note db tok with
    | some n => .found n
    | none =>
      match current with
      | none => .notFound
      | some cid =>
        let matching := (get_notes_in_folder db cid).filter (fun n => str_starts_with n.id tok)
        match matching with
        | [n] => .found n
        | [] => .notFound
        | ns => .ambiguousNote ns

/-! ## Export (src lines 299 to 459 and 837 to 848)

Filesystem effects are reified as a list of operations; mkdir records the
parents and exist_ok flags passed to pathlib Path.mkdir. -/

/-- A filesystem operation performed by the exporter. -/
inductive FsOp
  | mkdir (path : String) (parents : Bool) (existOk : Bool)
  | write (path : String) (content : String)
deriving DecidableEq, Repr

/-- pathlib path joining with the slash operator. -/
def pjoin (a b : String) : String := a ++ "/" ++ b

/-- The characters replaced by the title sanitizer. -/
def fs_special_chars : List Char := ['\\', '/', ':', '*', '?', '"', '<', '>', '|']

/-- The title sanitizer used for note file names and attachment directory
names: each filesystem-unsafe character becomes an underscore. -/
def sanitize_title (s : String) : String :=
  ⟨s.data.map (fun c => if fs_special_chars.contains c then '_' else c)⟩

/-- Modelled from the spec: the local-time strftime rendering
"%Y-%m-%d %H:%M:%S" of a millisecond epoch timestamp performed by
datetime.fromtimestamp in ts_to_str.  The calendar arithmetic is outside
the embedded program; it is modelled as an injective placeholder
rendering of the millisecond value, which no claim inspects. -/
def fmt_timestamp (t : Int) : String := toString t

/-- ts_to_str (src lines 27 to 31): None and 0 render as an em dash. -/
def ts_to_str (ts : Option Int) : String :=
  match ts with
  | none => "—"
  | some t => if t = 0 then "—" else fmt_timestamp t

/-- extract_attachments (src lines 299 to 362).  With no resources it
returns at once; otherwise it creates the per-note attachments directory
(parents and exist_ok both set).  NOTE: inside the per-resource loop the
source calls resource.get(...) on a sqlite3.Row, which has no get method;
the AttributeError this raises is caught by the per-resource handler, so
no attachment file is ever written and the returned mapping of saved
files stays empty.  Only the directory creation takes effect. -/
def extract_attachments (db : DB) (resources : List Resource) (note_title : String)
    (out_dir : String) : List FsOp × List (String × String) :=
  match db, resources with
  | _, [] => ([], [])
  | _, _ :: _ =>
    let attachments_dir := pjoin (pjoin out_dir "attachments") (sanitize_title note_title)
    ([FsOp.mkdir attachments_dir true true], [])

/-- One attachment line of the rendered markdown (src lines 404 to 409);
the saved-files mapping is consulted first, falling back to the recorded
filename or the literal unknown. -/
def md_attachment_line (saved_files : List (String × String)) (res : Resource) : String :=
  match saved_files.find? (fun p => p.1 = res.title) with
  | some p => "- [" ++ res.title ++ "](" ++ p.2 ++ ")\n"
  | none => "- [" ++ res.title ++ "](" ++ py_str_or res.filename "unknown" ++ ")\n"

/-- One attachment line of the rendered plain text (src lines 427 to 431). -/
def txt_attachment_line (saved_files : List (String × String)) (res : Resource) : String :=
  match saved_files.find? (fun p => p.1 = res.title) with
  | some p => "- " ++ res.title ++ " (" ++ p.2 ++ ")\n"
  | none => "- " ++ res.title ++ " (" ++ py_str_or res.filename "unknown" ++ ")\n"

/-- The full text written for a note by export_note_to_format (src lines
387 to 432), for both the markdown and the plain-text format. -/
def render_note (note : Note) (tags : List String) (resources : List Resource)
    (saved_files : List (String × String)) (format_type : String)
    (include_metadata : Bool) : String :=
  if str_lower format_type = "md" then
    "# " ++ note.title ++ "\n\n"
      ++ (if include_metadata then
            "*Created:* " ++ ts_to_str note.created_time ++ "\n"
              ++ "*Updated:* " ++ ts_to_str note.updated_time ++ "\n"
              ++ (if tags.isEmpty then "" else "*Tags:* " ++ String.intercalate ", " tags ++ "\n")
              ++ "\n---\n\n"
          else "")
      ++ py_str_or note.body "" ++ "\n"
      ++ (if include_metadata && !resources.isEmpty then
            "\n## Attachments\n" ++ String.join (resources.map (md_attachment_line saved_files))
          else "")
  else
    note.title ++ "\n" ++ String.mk (List.replicate note.title.length '=') ++ "\n\n"
      ++ (if include_metadata then
            "Created: " ++ ts_to_str note.created_time ++ "\n"
              ++ "Updated: " ++ ts_to_str note.updated_time ++ "\n"
              ++ (if tags.isEmpty then "" else "Tags: " ++ String.intercalate ", " tags ++ "\n")
              ++ "\n" ++ String.mk (List.replicate 40 '-') ++ "\n\n"
          else "")
      ++ py_str_or note.body "" ++ "\n"
      ++ (if include_metadata && !resources.isEmpty then
            "\n\nAttachments:\n" ++ String.join (resources.map (txt_attachment_line saved_files))
          else "")

/-- export_note_to_format (src lines 364 to 433): create the output
directory, extract attachments when metadata is included, then write the
rendered note to sanitized-title.extension. -/
def export_note_to_format (db : DB) (note : Note) (tags : List String)
    (resources : List Resource) (out_dir : String) (format_type : String)
    (include_metadata : Bool) : List FsOp :=
  let extension := if str_lower format_type = "md" then "md" else "txt"
  let file_path := pjoin out_dir (sanitize_title note.title ++ "." ++ extension)
  let extracted :=
    if include_metadata && !resources.isEmpty then
      extract_attachments db resources note.title out_dir
    else ([], [])
  FsOp.mkdir out_dir true true ::
    extracted.1 ++
      [FsOp.write file_path (render_note note tags resources extracted.2 format_type include_metadata)]

/-- export_notebook_recursive (src lines 435 to 459): create the folder
directory named by the RAW folder title (no sanitization), export the
notes of the folder, then recurse into the title-ordered subfolders.  The
fuel argument bounds the recursion depth; the source relies on the
acyclicity of the folder forest for termination. -/
def export_notebook_recursive (db : DB) (fuel : Nat) (folder : Folder) (out_dir : String)
    (format_type : String) (include_metadata : Bool) : List FsOp :=
  match fuel with
  | 0 => []
  | Nat.succ k =>
    let folder_dir := pjoin out_dir folder.title
    let note_ops := (get_notes_in_folder db folder.id).flatMap (fun note =>
      export_note_to_format db note (get_tags_for_note db note.id)
        (get_resources_for_note db note.id) folder_dir format_type include_metadata)
    let sub_ops := (get_folders db (some folder.id)).flatMap (fun sub =>
      export_notebook_recursive db k sub folder_dir format_type include_metadata)
    FsOp.mkdir folder_dir true true :: note_ops ++ sub_ops

/-- The outcome of the single-note branch of the e command. -/
inductive ExportSingleResult
  | notFound
  | exported (ops : List FsOp) (shown_path : String)
deriving DecidableEq, Repr

/-- The filesystem operations an e command outcome performs. -/
def export_single_ops : ExportSingleResult → List FsOp
  | .notFound => []
  | .exported ops _ => ops

/-- The single-note branch of the e command (src lines 837 to 848): the
argument is passed to db.get_note, an EXACT full-id lookup; on failure
the command prints Note not found and performs no filesystem operation. -/
def export_single_cmd (db : DB) (arg : String) (export_dir : String)
    (export_format : String) (include_metadata : Bool) : ExportSingleResult :=
  match get_note db arg with
  | none => .notFound
  | some note =>
    let ops := export_note_to_format db note (get_tags_for_note db note.id)
      (get_resources_for_note db note.id) export_dir export_format include_metadata
    let extension := if str_lower export_format = "md" then "md" else "txt"
    .exported ops (pjoin export_dir (sanitize_title note.title ++ "." ++ extension))

/-! ## Raw-mode line editor (get_terminal_raw_input, src lines 58 to 153)

The byte stream read from the terminal is a list of characters; the
function returns the completed line (as a character list) or none when
the stream ends mid-read (the source would fall back to plain input on
the resulting error). -/

/-- The loop body of get_terminal_raw_input.  An ESC byte makes the
source read TWO further bytes unconditionally (src lines 97 and 98); only
when the first of them is a bracket are the arrow keys interpreted.  The
history-append on Enter affects later reads only and is not part of the
returned value. -/
def raw_input_loop (hist : List (List Char)) (buf : List Char) (pos : Nat) :
    List Char → Option (List Char)
  | [] => none
  | ch :: rest =>
    if ch = '\n' ∨ ch = '\r' then some buf
    else if ch = '\x03' then some []
    else if ch = '\x1b' then
      match rest with
      | n1 :: _n2 :: rest2 =>
        if n1 = '[' then
          if _n2 = 'A' then
            match hist.getLast? with
            | some h =>
              if buf ≠ h then raw_input_loop hist h h.length rest2
              else raw_input_loop hist buf pos rest2
            | none => raw_input_loop hist buf pos rest2
          else if _n2 = 'B' then
            if buf ≠ [] then raw_input_loop hist [] 0 rest2
            else raw_input_loop hist buf pos rest2
          else if _n2 = 'C' then
            raw_input_loop hist buf (if pos < buf.length then pos + 1 else pos) rest2
          else if _n2 = 'D' then
            raw_input_loop hist buf (if 0 < pos then pos - 1 else pos) rest2
          else raw_input_loop hist buf pos rest2
        else raw_input_loop hist buf pos rest2
      | _ => none
    else if ch = '\x7f' ∨ ch = '\x08' then
      if 0 < pos then raw_input_loop hist (buf.take (pos - 1) ++ buf.drop pos) (pos - 1) rest
      else raw_input_loop hist buf pos rest
    else if 32 ≤ ch.toNat ∧ ch.toNat ≤ 126 then
      raw_input_loop hist (buf.take pos ++ ch :: buf.drop pos) (pos + 1) rest
    else raw_input_loop hist buf pos rest

/-- The editor states named by the spec. -/
inductive EdState
  | normal
  | escapeSeen
  | escapeBracketSeen
deriving DecidableEq, Repr

/-- Follows the WORDS OF THE SPEC, for comparison with raw_input_loop:
the section 4.1 state machine, in which ESCAPE_SEEN consumes a SINGLE
byte and any byte other than a bracket returns to NORMAL, so the byte
after a malformed escape is processed as ordinary input. -/
def spec_editor_loop (hist : List (List Char)) (st : EdState) (buf : List Char) (pos : Nat) :
    List Char → Option (List Char)
  | [] => none
  | ch :: rest =>
    match st with
    | .escapeSeen =>
      if ch = '[' then spec_editor_loop hist .escapeBracketSeen buf pos rest
      else spec_editor_loop hist .normal buf pos rest
    | .escapeBracketSeen =>
      if ch = 'A' then
        match hist.getLast? with
        | some h =>
          if buf ≠ h then spec_editor_loop hist .normal h h.length rest
          else spec_editor_loop hist .normal buf pos rest
        | none => spec_editor_loop hist .normal buf pos rest
      else if ch = 'B' then spec_editor_loop hist .normal [] 0 rest
      else if ch = 'C' then
        spec_editor_loop hist .normal buf (if pos < buf.length then pos + 1 else pos) rest
      else if ch = 'D' then
        spec_editor_loop hist .normal buf (if 0 < pos then pos - 1 else pos) rest
      else spec_editor_loop hist .normal buf pos rest
    | .normal =>
      if ch = '\n' ∨ ch = '\r' then some buf
      else if ch = '\x03' then some []
      else if ch = '\x1b' then spec_editor_loop hist .escapeSeen buf pos rest
      else if ch = '\x7f' ∨ ch = '\x08' then
        if 0 < pos then spec_editor_loop hist .normal (buf.take (pos - 1) ++ buf.drop pos) (pos - 1) rest
        else spec_editor_loop hist .normal buf pos rest
      else if 32 ≤ ch.toNat ∧ ch.toNat ≤ 126 then
        spec_editor_loop hist .normal (buf.take pos ++ ch :: buf.drop pos) (pos + 1) rest
      else spec_editor_loop hist .normal buf pos rest

/-! ## Line-reading backends and Ctrl-C (enhanced_input, src lines 155 to 215)

Python exception semantics needed here: KeyboardInterrupt derives from
BaseException but NOT from Exception, so an except-Exception clause does
not catch it; EOFError does derive from Exception. -/

/-- The Python exceptions relevant to line reading. -/
inductive PyExc
  | eofError
  | keyboardInterrupt
deriving DecidableEq, Repr

/-- Whether the exception is caught by an except-Exception clause:
KeyboardInterrupt is a BaseException outside the Exception hierarchy. -/
def PyExc.caughtByExcept : PyExc → Bool
  | .eofError => true
  | .keyboardInterrupt => false

/-- What the user does while a blocking line read is pending. -/
inductive InEvent
  | line (s : String)
  | ctrlC
  | endOfInput
deriving DecidableEq, Repr

/-- The Python builtin input(): returns the completed line, raises
KeyboardInterrupt when the line is interrupted by Ctrl-C in cooked mode,
and raises EOFError at end of input. -/
def builtin_input : InEvent → Except PyExc String
  | .line s => .ok s
  | .ctrlC => .error .keyboardInterrupt
  | .endOfInput => .error .eofError

/-- How one line-read attempt ends: a line, a fall-through to the next
backend, or an exception propagating out. -/
inductive ReadOutcome
  | line (s : String)
  | fallthrough
  | raised (e : PyExc)
deriving DecidableEq, Repr

/-- The readline-backed branch of enhanced_input (src lines 160 to 192):
the whole block sits in a try with an except-Exception handler whose body
is pass, after which control falls through to the next backend.  An
exception not caught by except Exception propagates. -/
def enhanced_input_readline (ev : InEvent) : ReadOutcome :=
  match builtin_input ev with
  | .ok l => .line l
  | .error e => if e.caughtByExcept then .fallthrough else .raised e

/-- The plain fallback branch of enhanced_input (src lines 198 to 207):
sys.stdin.readline with an except clause naming both EOFError and
KeyboardInterrupt, each returning the empty string. -/
def plain_fallback_input (ev : InEvent) : ReadOutcome :=
  match ev with
  | .line s => .line s
  | .ctrlC => .line ""
  | .endOfInput => .line ""

/-- safe_input (src lines 209 to 215) around the readline branch: only
EOFError is caught at this level; any other escaping exception keeps
propagating. -/
def safe_input_readline (ev : InEvent) : ReadOutcome :=
  match enhanced_input_readline ev with
  | .raised e => if e = .eofError then .line "" else .raised e
  | o => o

/-- Whether the interactive session survives the outcome of a line read:
interactive_browser and main install no exception handler, so a raised
exception terminates the session. -/
def session_survives : ReadOutcome → Bool
  | .raised _ => false
  | _ => true

/-! ## Helper lemmas -/

theorem mem_insert_sorted {α : Type} (key : α → String) (x a : α) :
    ∀ l : List α, a ∈ insert_sorted key x l ↔ a = x ∨ a ∈ l := by
  intro l
  induction l with
  | nil => simp [insert_sorted]
  | cons y ys ih =>
    by_cases h : str_le (key x) (key y)
    · simp [insert_sorted, h]
    · simp [insert_sorted, h, ih]
      tauto

theorem mem_sort_by_key {α : Type} (key : α → String) (a : α) :
    ∀ l : List α, a ∈ sort_by_key key l ↔ a ∈ l := by
  intro l
  induction l with
  | nil => simp [sort_by_key]
  | cons x xs ih => simp [sort_by_key, mem_insert_sorted, ih]

theorem find?_eq_head?_filter {α : Type} (p : α → Bool) :
    ∀ l : List α, l.find? p = (l.filter p).head? := by
  intro l
  induction l with
  | nil => rfl
  | cons x xs ih =>
    by_cases h : p x = true
    · rw [List.find?_cons_of_pos xs h, List.filter_cons_of_pos h]
      rfl
    · rw [List.find?_cons_of_neg xs h, List.filter_cons_of_neg (by simpa using h), ih]

theorem get_folders_eq (db : DB) (cur : Option String) :
    get_folders db cur
      = sort_by_key (fun f => f.title) (db.folders.filter (fun f => f.parent_id = parent_key cur)) := by
  cases cur <;> rfl

theorem mem_get_folders (db : DB) (cur : Option String) (f : Folder) :
    f ∈ get_folders db cur ↔ f ∈ db.folders ∧ f.parent_id = parent_key cur := by
  rw [get_folders_eq, mem_sort_by_key]
  simp [List.mem_filter]

theorem mem_get_notes_in_folder (db : DB) (fid : String) (n : Note) :
    n ∈ get_notes_in_folder db fid ↔ n ∈ db.notes ∧ n.parent_id = fid := by
  rw [get_notes_in_folder, mem_sort_by_key]
  simp [List.mem_filter]

theorem path_walk_empty_id (db : DB) : ∀ n : Nat, path_walk db n "" = [] := by
  intro n
  cases n <;> simp [path_walk]

theorem root_folder_parent (db : DB) (f : Folder) (h : f ∈ get_folders db none) :
    f.parent_id = "" :=
  ((mem_get_folders db none f).1 h).2

theorem path_walk_step (db : DB) (fid : String) (hf : fid ≠ "") (n : Nat) :
    path_walk db (n + 1) fid
      = (match (get_folders db none).find? (fun f => f.id = fid) with
         | none => []
         | some F => [F.title]) := by
  cases hfind : (get_folders db none).find? (fun f => f.id = fid) with
  | none => simp [path_walk, hf, hfind]
  | some F =>
    have hp : F.parent_id = "" :=
      root_folder_parent db F (List.mem_of_find?_eq_some hfind)
    simp [path_walk, hf, hfind, hp, path_walk_empty_id]

theorem py_str_or_some_empty (b : String) : py_str_or (some b) "" = b := by
  by_cases h : b = "" <;> simp [py_str_or, h]

theorem split_slash_aux_append (a b : List Char) (h : '/' ∉ a) :
    split_slash_aux (a ++ '/' :: b) = (a, b) := by
  induction a with
  | nil => simp [split_slash_aux]
  | cons c cs ih =>
    have hc : c ≠ '/' := by
      intro hcc
      exact h (by simp [hcc])
    have hcs : '/' ∉ cs := fun hm => h (by simp [hm])
    simp [split_slash_aux, hc, ih hcs]

theorem split_slash_append (ft nt : String) (h : str_contains ft '/' = false) :
    split_slash (ft ++ "/" ++ nt) = (ft, nt) := by
  have hm : '/' ∉ ft.data := by
    intro hmem
    have : str_contains ft '/' = true := by
      simp [str_contains, List.contains, hmem]
    rw [this] at h
    exact Bool.true_eq_false.mp h
  have hdata : (ft ++ "/" ++ nt).data = ft.data ++ '/' :: nt.data := by
    simp [String.data_append]
  simp [split_slash, hdata, split_slash_aux_append ft.data nt.data hm]

theorem str_contains_append_slash (ft nt : String) :
    str_contains (ft ++ "/" ++ nt) '/' = true := by
  simp [str_contains, String.data_append, List.contains]

theorem extract_attachments_mkdir_flags (db : DB) (res : List Resource) (t out p : String)
    (pr eo : Bool) (h : FsOp.mkdir p pr eo ∈ (extract_attachments db res t out).1) :
    pr = true ∧ eo = true := by
  cases res with
  | nil => simp [extract_attachments] at h
  | cons r rs =>
    simp only [extract_attachments, List.mem_singleton, FsOp.mkdir.injEq] at h
    exact ⟨h.2.1, h.2.2⟩

theorem export_note_mkdir_flags (db : DB) (note : Note) (tags : List String)
    (res : List Resource) (out fmt : String) (meta : Bool) (p : String) (pr eo : Bool)
    (h : FsOp.mkdir p pr eo ∈ export_note_to_format db note tags res out fmt meta) :
    pr = true ∧ eo = true := by
  simp only [export_note_to_format] at h
  rcases List.mem_cons.1 h with h1 | h2
  · rw [FsOp.mkdir.injEq] at h1
    exact ⟨h1.2.1, h1.2.2⟩
  · rcases List.mem_append.1 h2 with h3 | h4
    · by_cases hm : (meta && !res.isEmpty) = true
      · rw [if_pos hm] at h3
        exact extract_attachments_mkdir_flags db res note.title out p pr eo h3
      · rw [if_neg hm] at h3
        simp at h3
    · simp at h4

theorem export_rec_mkdir_flags (db : DB) :
    ∀ (fuel : Nat) (f : Folder) (out fmt : String) (meta : Bool) (p : String) (pr eo : Bool),
      FsOp.mkdir p pr eo ∈ export_notebook_recursive db fuel f out fmt meta →
        pr = true ∧ eo = true := by
  intro fuel
  induction fuel with
  | zero =>
    intro f out fmt meta p pr eo h
    simp [export_notebook_recursive] at h
  | succ k ih =>
    intro f out fmt meta p pr eo h
    simp only [export_notebook_recursive] at h
    rcases List.mem_cons.1 h with h1 | h2
    · rw [FsOp.mkdir.injEq] at h1
      exact ⟨h1.2.1, h1.2.2⟩
    · rcases List.mem_append.1 h2 with h3 | h4
      · obtain ⟨note, _, hmem⟩ := List.mem_flatMap.1 h3
        exact export_note_mkdir_flags db note _ _ _ _ _ p pr eo hmem
      · obtain ⟨sub, _, hmem⟩ := List.mem_flatMap.1 h4
        exact ih sub _ fmt meta p pr eo hmem

/-! ## Concrete databases used by witnesses and counterexamples -/

/-- Two root-level folders, A and B. -/
def navDB : DB :=
  ⟨[⟨"aa111111", "A", ""⟩, ⟨"bb222222", "B", ""⟩], [], [], [], [], []⟩

/-- Two root-level folders whose ids share the run aa, the first holding
one note. -/
def dbAmb : DB :=
  ⟨[⟨"aa11", "A", ""⟩, ⟨"aa22", "B", ""⟩],
    [⟨"n111", "N", some "bodyN", "aa11", none, none⟩], [], [], [], []⟩

/-- A root folder R with a subfolder S holding one note. -/
def dbSub : DB :=
  ⟨[⟨"r100", "R", ""⟩, ⟨"s200", "S", "r100"⟩],
    [⟨"m111", "M", some "bodyM", "s200", none, none⟩], [], [], [], []⟩

/-- Two root folders, each holding one note; both note ids begin with ab. -/
def dbNotes : DB :=
  ⟨[⟨"f111", "F", ""⟩, ⟨"g222", "G", ""⟩],
    [⟨"abc1", "N1", some "x", "f111", none, none⟩,
     ⟨"abx9", "G1", some "y", "g222", none, none⟩], [], [], [], []⟩

/-- One root folder whose title contains a path separator. -/
def dbSlash : DB := ⟨[⟨"f4", "a/b", ""⟩], [], [], [], [], []⟩

/-- A note with title T and body B. -/
def noteTB : Note := ⟨"n5", "T", some "B", "f", none, none⟩

/-! ## Claim C1 — navigation round-trip -/

/-- Claim C1, counterexample: from the reachable state with no current
folder but a non-empty back-stack (reached by cd aa, cd /), a successful
cd bb pushes nothing, so the following cd .. pops the OLDER stack entry
instead of returning to the pre-enter state: the current folder changes
from none to aa111111 and the prompt from (root) to A. -/
theorem claim_C1_counterexample :
    (cd_command navDB ⟨none, []⟩ "aa").1 = ⟨some "aa111111", []⟩
  ∧ (cd_command navDB ⟨some "aa111111", []⟩ "/").1 = ⟨none, ["aa111111"]⟩
  ∧ (cd_command navDB ⟨none, ["aa111111"]⟩ "bb").1 = ⟨some "bb222222", ["aa111111"]⟩
  ∧ (cd_command navDB ⟨some "bb222222", ["aa111111"]⟩ "..").1 = ⟨some "aa111111", []⟩
  ∧ ((⟨some "aa111111", []⟩ : NavState) ≠ ⟨none, ["aa111111"]⟩)
  ∧ prompt_string navDB (some "aa111111") = "A"
  ∧ prompt_string navDB none = "(root)"
  ∧ ("A" : String) ≠ "(root)" := by
  decide

/-- Claim C1 (amended): the enter-then-goUp round-trip restores the full
navigation state, and with it the displayed path, PROVIDED a folder was
active before entering or the back-stack was empty; entering from root
with a non-empty back-stack instead lands on the back-stack top. -/
theorem claim_C1_roundtrip (db : DB) (st : NavState) (t : String) (f : Folder)
    (h1 : t ≠ "..") (h2 : t ≠ "/") (h3 : t ≠ "")
    (hc : (get_folders db st.current).filter (fun g => str_starts_with g.id t) = [f])
    (hpre : st.current.isSome ∨ st.history = []) :
    (cd_command db (cd_command db st t).1 "..").1 = st
  ∧ prompt_string db (cd_command db (cd_command db st t).1 "..").1.current
      = prompt_string db st.current := by
  have hstep : (cd_command db st t).1
      = ⟨some f.id,
          match st.current with
          | some cur => st.history ++ [cur]
          | none => st.history⟩ := by
    simp only [cd_command, if_neg h1, if_neg h2, if_neg h3]
    rw [hc]
  have hmain : (cd_command db (cd_command db st t).1 "..").1 = st := by
    rw [hstep]
    cases hcur : st.current with
    | some c =>
      simp only [cd_command, if_pos rfl, hcur]
      rw [List.getLast?_concat, List.dropLast_concat]
      cases st
      simp_all
    | none =>
      rcases hpre with hs | hh
      · rw [hcur] at hs
        simp at hs
      · simp only [cd_command, if_pos rfl, hcur, hh]
        cases st
        simp_all
  exact ⟨hmain, by rw [hmain]⟩

/-- Claim C1, witness: the round-trip theorem applied to a concrete
successful cd bb from the empty initial state. -/
theorem claim_C1_witness :
    (cd_command navDB (cd_command navDB ⟨none, []⟩ "bb").1 "..").1 = (⟨none, []⟩ : NavState) :=
  (claim_C1_roundtrip navDB ⟨none, []⟩ "bb" ⟨"bb222222", "B", ""⟩
    (by decide) (by decide) (by decide) (by decide) (Or.inr rfl)).1

/-! ## Claim C6 — cd folder resolution policy -/

/-- Claim C6: for a cd token other than dot-dot and slash, the candidate
set is exactly the direct children of the current location (root-level
folders when none is active) whose id begins with the token; one
candidate enters it (pushing the old current folder), zero reports not
found, and two or more report the full candidate set, with the
8-character id abbreviation and title of each, changing nothing. -/
theorem claim_C6_cd_resolution (db : DB) (st : NavState) (t : String)
    (h1 : t ≠ "..") (h2 : t ≠ "/") (h3 : t ≠ "") :
    (∀ f : Folder,
        f ∈ (get_folders db st.current).filter (fun g => str_starts_with g.id t) ↔
          f ∈ db.folders ∧ f.parent_id = parent_key st.current ∧ str_starts_with f.id t = true)
  ∧ (∀ f : Folder,
        (get_folders db st.current).filter (fun g => str_starts_with g.id t) = [f] →
          cd_command db st t
            = (⟨some f.id,
                match st.current with
                | some c => st.history ++ [c]
                | none => st.history⟩, .entered f.title))
  ∧ ((get_folders db st.current).filter (fun g => str_starts_with g.id t) = [] →
        cd_command db st t = (st, .notFound))
  ∧ (∀ (c c2 : Folder) (rest : List Folder),
        (get_folders db st.current).filter (fun g => str_starts_with g.id t) = c :: c2 :: rest →
          cd_command db st t = (st, .ambiguous (c :: c2 :: rest))
        ∧ cd_msg_lines (.ambiguous (c :: c2 :: rest))
            = "Ambiguous ID - matches:" ::
                (c :: c2 :: rest).map (fun g => "  [" ++ str_take g.id 8 ++ "] " ++ g.title)) := by
  refine ⟨?_, ?_, ?_, ?_⟩
  · intro f
    rw [List.mem_filter, mem_get_folders]
    tauto
  · intro f hf
    simp only [cd_command, if_neg h1, if_neg h2, if_neg h3]
    rw [hf]
  · intro hf
    simp only [cd_command, if_neg h1, if_neg h2, if_neg h3]
    rw [hf]
  · intro c c2 rest hf
    constructor
    · simp only [cd_command, if_neg h1, if_neg h2, if_neg h3]
      rw [hf]
    · rfl

/-- Claim C6, witness: the resolution theorem applied to a concrete cd
with a unique candidate. -/
theorem claim_C6_witness :
    cd_command navDB ⟨none, []⟩ "bb" = (⟨some "bb222222", []⟩, CdMsg.entered "B") :=
  (claim_C6_cd_resolution navDB ⟨none, []⟩ "bb"
    (by decide) (by decide) (by decide)).2.1 ⟨"bb222222", "B", ""⟩ (by decide)

/-! ## Claim C2 — qualified-path folder resolution -/

/-- Claim C2, counterexample: in dbAmb TWO folders match the folder token
aa, yet the qualified lookup resolves a note instead of reporting the
ambiguity and aborting; and in dbSub the unique database folder matching
s2 is a subfolder, which the root-level-only lookup fails to find, so the
folder part is not resolved against all folders. -/
theorem claim_C2_counterexample :
    ((get_folders dbAmb none).filter (fun f => str_starts_with f.id "aa")).length = 2
  ∧ find_note_in_context dbAmb none "aa/n1"
      = .found ⟨"n111", "N", some "bodyN", "aa11", none, none⟩
  ∧ dbSub.folders.filter (fun f => str_starts_with f.id "s2") = [⟨"s200", "S", "r100"⟩]
  ∧ find_note_in_context dbSub none "s2/m1" = FindResult.notebookNotFound := by
  decide

/-- Claim C2 (amended): the folder part of a qualified token is resolved
against the ROOT-LEVEL folders only; when none of them matches, the
lookup reports notebook-not-found and aborts, and otherwise it silently
proceeds with the FIRST match in title order, even when several match. -/
theorem claim_C2_qualified_folder_resolution (db : DB) (ft nt : String) :
    ((get_folders db none).filter (fun f => str_starts_with f.id ft) = [] →
        qualified_lookup db ft nt = .notebookNotFound)
  ∧ (∀ (F : Folder) (rest : List Folder),
        (get_folders db none).filter (fun f => str_starts_with f.id ft) = F :: rest →
          qualified_lookup db ft nt = note_lookup_in_folder db F nt)
  ∧ (∀ cur : Option String, str_contains ft '/' = false →
        find_note_in_context db cur (ft ++ "/" ++ nt) = qualified_lookup db ft nt) := by
  refine ⟨?_, ?_, ?_⟩
  · intro hf
    simp only [qualified_lookup, find?_eq_head?_filter, hf]
    rfl
  · intro F rest hf
    simp only [qualified_lookup, find?_eq_head?_filter, hf]
    rfl
  · intro cur hft
    simp only [find_note_in_context, str_contains_append_slash ft nt, if_pos,
      split_slash_append ft nt hft]

/-- Claim C2, witness: with two matching root folders the lookup proceeds
inside the alphabetically first one. -/
theorem claim_C2_witness :
    qualified_lookup dbAmb "aa" "n1" = note_lookup_in_folder dbAmb ⟨"aa11", "A", ""⟩ "n1" :=
  (claim_C2_qualified_folder_resolution dbAmb "aa" "n1").2.1
    ⟨"aa11", "A", ""⟩ [⟨"aa22", "B", ""⟩] (by decide)

/-! ## Claim C3 — displayed current path -/

/-- Claim C3, counterexample: with the subfolder S current, the spec path
(titles from root to current) is R, S, but the prompt walk looks the
current folder up among ROOT-LEVEL folders only, silently fails, and
displays (root). -/
theorem claim_C3_counterexample :
    prompt_string dbSub (some "s200") = "(root)"
  ∧ spec_currentPath dbSub "s200" = some ["R", "S"]
  ∧ String.intercalate "/" ["R", "S"] = "R/S"
  ∧ ("(root)" : String) ≠ "R/S" := by
  decide

/-- Claim C3 (amended): the prompt walk resolves each ancestor among the
root-level folders only, so it shows exactly the current folder title
when the current folder is root-level and (root) otherwise; a failed
lookup silently stops the walk with no report, and the walk terminates
with the same answer under any positive fuel bound. -/
theorem claim_C3_prompt_walk (db : DB) (fid : String) (hf : fid ≠ "") :
    (prompt_parts db (some fid)
        = (match (get_folders db none).find? (fun f => f.id = fid) with
           | none => []
           | some F => [F.title]))
  ∧ (∀ F : Folder, (get_folders db none).find? (fun f => f.id = fid) = some F →
        prompt_string db (some fid) = F.title)
  ∧ ((get_folders db none).find? (fun f => f.id = fid) = none →
        prompt_string db (some fid) = "(root)")
  ∧ (∀ m : Nat, 1 ≤ m →
        path_walk db m fid = path_walk db (db.folders.length + 1) fid) := by
  have hparts : prompt_parts db (some fid)
      = (match (get_folders db none).find? (fun f => f.id = fid) with
         | none => []
         | some F => [F.title]) := by
    rw [prompt_parts, Option.getD_some, path_walk_step db fid hf]
    cases (get_folders db none).find? (fun f => f.id = fid) <;> simp
  refine ⟨hparts, ?_, ?_, ?_⟩
  · intro F hF
    rw [prompt_string, hparts, hF]
    simp [String.intercalate, String.intercalate.go]
  · intro hF
    rw [prompt_string, hparts, hF]
  · intro m hm
    obtain ⟨m2, rfl⟩ : ∃ m2, m = m2 + 1 := ⟨m - 1, (Nat.succ_pred_eq_of_pos hm).symm⟩
    rw [path_walk_step db fid hf, path_walk_step db fid hf]

/-- Claim C3, witness: the characterization applied to the subfolder of
dbSub, whose failed root-level lookup yields the (root) prompt. -/
theorem claim_C3_witness : prompt_string dbSub (some "s200") = "(root)" :=
  (claim_C3_prompt_walk dbSub "s200" (by decide)).2.2.1 (by decide)

/-! ## Claim C7 — bare-token note scoping -/

/-- Claim C7: a slash-free token is first looked up as an exact full note
id anywhere in the database; only if that fails and a folder is active is
it matched as an id run against the notes of that folder with the
zero-one-many policy, and a note resolved this way always lies in the
active folder — a bare token is never resolved by id run against the
whole database. -/
theorem claim_C7_bare_token_scoping (db : DB) (cur : Option String) (tok : String)
    (hs : str_contains tok '/' = false) :
    (∀ n : Note, get_note db tok = some n → find_note_in_context db cur tok = .found n)
  ∧ (get_note db tok = none → cur = none → find_note_in_context db cur tok = .notFound)
  ∧ (∀ c : String, get_note db tok = none → cur = some c →
        ((get_notes_in_folder db c).filter (fun n => str_starts_with n.id tok) = [] →
            find_note_in_context db cur tok = .notFound)
      ∧ (∀ m : Note,
            (get_notes_in_folder db c).filter (fun n => str_starts_with n.id tok) = [m] →
              find_note_in_context db cur tok = .found m)
      ∧ (∀ (m m2 : Note) (rest : List Note),
            (get_notes_in_folder db c).filter (fun n => str_starts_with n.id tok)
                = m :: m2 :: rest →
              find_note_in_context db cur tok = .ambiguousNote (m :: m2 :: rest)))
  ∧ (∀ n : Note, find_note_in_context db cur tok = .found n →
        (n ∈ db.notes ∧ n.id = tok) ∨
          (∃ c : String, cur = some c ∧ n ∈ db.notes ∧ n.parent_id = c
            ∧ str_starts_with n.id tok = true)) := by
  refine ⟨?_, ?_, ?_, ?_⟩
  · intro n hn
    simp [find_note_in_context, hs, hn]
  · intro hn hc
    simp [find_note_in_context, hs, hn, hc]
  · intro c hn hc
    refine ⟨?_, ?_, ?_⟩
    · intro hfil
      simp [find_note_in_context, hs, hn, hc, hfil]
    · intro m hfil
      simp [find_note_in_context, hs, hn, hc, hfil]
    · intro m m2 rest hfil
      simp [find_note_in_context, hs, hn, hc, hfil]
  · intro n hfound
    simp only [find_note_in_context, hs, Bool.false_eq_true, if_false] at hfound
    cases hg : get_note db tok with
    | some m =>
      simp only [hg] at hfound
      have hmn : m = n := by simpa using hfound
      subst hmn
      left
      have hmem := List.mem_of_find?_eq_some hg
      have hpred := List.find?_some hg
      simp at hpred
      exact ⟨hmem, hpred⟩
    | none =>
      simp only [hg] at hfound
      cases hcur : cur with
      | none =>
        simp [hcur] at hfound
      | some c =>
        simp only [hcur] at hfound
        right
        refine ⟨c, rfl, ?_⟩
        cases hfil : (get_notes_in_folder db c).filter (fun n => str_starts_with n.id tok) with
        | nil =>
          simp [hfil] at hfound
        | cons m rest =>
          cases rest with
          | nil =>
            simp only [hfil] at hfound
            have hmn : m = n := by simpa using hfound
            subst hmn
            have hmem : m ∈ (get_notes_in_folder db c).filter
                (fun nn => str_starts_with nn.id tok) := by
              rw [hfil]
              simp
            have h1 := List.mem_of_mem_filter hmem
            have h2 := List.of_mem_filter hmem
            rw [mem_get_notes_in_folder] at h1
            exact ⟨h1.1, h1.2, h2⟩
          | cons m2 rest2 =>
            simp [hfil] at hfound

/-- Claim C7, witness: in dbNotes the bare token ab resolves, inside the
active folder f111 only, to the note abc1 — although the note abx9 of
another folder also begins with ab. -/
theorem claim_C7_witness :
    find_note_in_context dbNotes (some "f111") "ab"
      = .found ⟨"abc1", "N1", some "x", "f111", none, none⟩ :=
  ((claim_C7_bare_token_scoping dbNotes (some "f111") "ab" (by decide)).2.2.1
    "f111" (by decide) rfl).2.1 ⟨"abc1", "N1", some "x", "f111", none, none⟩ (by decide)

/-! ## Claim C10 — single-note export resolves exact ids only -/

/-- Claim C10: the e command passes its argument to the exact full-id
note lookup only; when no note has exactly that id the command reports
not-found and performs no filesystem operation, even when the token is an
id run or qualified path that the n, cat and vim commands would resolve. -/
theorem claim_C10_export_exact_only (db : DB) (cur : Option String)
    (tok dir fmt : String) (meta : Bool) :
    (get_note db tok = none →
        export_single_cmd db tok dir fmt meta = .notFound
      ∧ export_single_ops (export_single_cmd db tok dir fmt meta) = [])
  ∧ (∀ n : Note, get_note db tok = none → find_note_in_context db cur tok = .found n →
        export_single_cmd db tok dir fmt meta = .notFound) := by
  constructor
  · intro hn
    simp [export_single_cmd, hn, export_single_ops]
  · intro n hn _
    simp [export_single_cmd, hn]

/-- Claim C10, witness: the token ab resolves to a note for the n, cat
and vim commands inside folder f111, but the e command reports not-found
for it. -/
theorem claim_C10_witness :
    export_single_cmd dbNotes "ab" "out" "md" false = ExportSingleResult.notFound :=
  (claim_C10_export_exact_only dbNotes (some "f111") "ab" "out" "md" false).2
    ⟨"abc1", "N1", some "x", "f111", none, none⟩ (by decide) (by decide)

/-! ## Claim C4 — export directory naming -/

/-- Claim C4, counterexample: the directory created for a folder is named
by the RAW folder title; the title a/b is not sanitized, still contains
the separator, and so does not stay a single path segment. -/
theorem claim_C4_counterexample :
    export_notebook_recursive dbSlash 1 ⟨"f4", "a/b", ""⟩ "out" "md" false
      = [FsOp.mkdir "out/a/b" true true]
  ∧ sanitize_title "a/b" = "a_b"
  ∧ str_contains "a/b" '/' = true
  ∧ str_contains (sanitize_title "a/b") '/' = false
  ∧ pjoin "out" "a/b" ≠ pjoin "out" (sanitize_title "a/b") := by
  decide

/-- Claim C4 (amended): every directory mkdir issued by the recursive
export passes parents and exist_ok, so creation is idempotent and does
not fail on an existing directory; but the subdirectory created for a
visited folder is named by the folder title UNSANITIZED, so a title
containing a separator spans several path segments. -/
theorem claim_C4_export_dirs (db : DB) (fuel : Nat) (f : Folder) (out fmt : String)
    (meta : Bool) :
    (∀ (p : String) (pr eo : Bool),
        FsOp.mkdir p pr eo ∈ export_notebook_recursive db fuel f out fmt meta →
          pr = true ∧ eo = true)
  ∧ (∀ k : Nat, fuel = k + 1 →
        ∃ rest : List FsOp,
          export_notebook_recursive db fuel f out fmt meta
            = FsOp.mkdir (pjoin out f.title) true true :: rest) := by
  constructor
  · intro p pr eo h
    exact export_rec_mkdir_flags db fuel f out fmt meta p pr eo h
  · intro k hk
    subst hk
    exact ⟨_, rfl⟩

/-- Claim C4, witness: the export of the folder titled a/b creates the
directory out/a/b at the head of its operation list. -/
theorem claim_C4_witness :
    ∃ rest : List FsOp,
      export_notebook_recursive dbSlash 1 ⟨"f4", "a/b", ""⟩ "out" "md" false
        = FsOp.mkdir (pjoin "out" "a/b") true true :: rest :=
  (claim_C4_export_dirs dbSlash 1 ⟨"f4", "a/b", ""⟩ "out" "md" false).2 0 rfl

/-! ## Claim C5 — body-only export round-trip -/

/-- List-level helper: dropping the header and the trailing newline of a
rendered body-only file recovers the body bytes exactly. -/
theorem data_drop_header (H b : String) :
    (((H ++ b) ++ "\n").data.drop H.length).dropLast = b.data := by
  have h1 : ((H ++ b) ++ "\n").data = H.data ++ (b.data ++ "\n".data) := by
    simp [String.data_append]
  have h2 : H.length = H.data.length := rfl
  have h3 : ("\n" : String).data = ['\n'] := rfl
  rw [h1, h2, List.drop_left, h3, List.dropLast_concat]

/-- Claim C5, counterexample: the body-only markdown export of the note
titled T with body B produces the bytes of a title header, the body and
a trailing newline — not bytes identical to the body; likewise for the
plain-text format. -/
theorem claim_C5_counterexample :
    render_note noteTB [] [] [] "md" false = "# T\n\nB\n"
  ∧ ("# T\n\nB\n" : String) ≠ "B"
  ∧ render_note noteTB [] [] [] "txt" false = "T\n=\n\nB\n"
  ∧ ("T\n=\n\nB\n" : String) ≠ "B" := by
  decide

/-- Claim C5 (amended): for EVERY note and whatever tags, attachments and
saved-files mapping accompany it, with includeMetadata false the produced
file is a title header, the body VERBATIM, and one trailing newline, in
both formats (the metadata arguments are ignored when metadata is
disabled); stripping the header and the final newline recovers the body
byte-identically. -/
theorem claim_C5_body_render (n : Note) (tags : List String) (resources : List Resource)
    (saved : List (String × String)) (b : String) (hb : n.body = some b) :
    render_note n tags resources saved "md" false = "# " ++ n.title ++ "\n\n" ++ b ++ "\n"
  ∧ ((render_note n tags resources saved "md" false).data.drop
        ("# " ++ n.title ++ "\n\n").length).dropLast = b.data
  ∧ render_note n tags resources saved "txt" false
      = n.title ++ "\n" ++ String.mk (List.replicate n.title.length '=') ++ "\n\n" ++ b ++ "\n"
  ∧ ((render_note n tags resources saved "txt" false).data.drop
        (n.title ++ "\n" ++ String.mk (List.replicate n.title.length '=') ++ "\n\n").length).dropLast
      = b.data := by
  have hmd : render_note n tags resources saved "md" false
      = "# " ++ n.title ++ "\n\n" ++ "" ++ py_str_or n.body "" ++ "\n" ++ "" := rfl
  have htxt : render_note n tags resources saved "txt" false
      = n.title ++ "\n" ++ String.mk (List.replicate n.title.length '=') ++ "\n\n" ++ ""
          ++ py_str_or n.body "" ++ "\n" ++ "" := rfl
  have c1 : render_note n tags resources saved "md" false
      = "# " ++ n.title ++ "\n\n" ++ b ++ "\n" := by
    rw [hmd, hb, py_str_or_some_empty]
    simp [String.append_assoc]
  have c3 : render_note n tags resources saved "txt" false
      = n.title ++ "\n" ++ String.mk (List.replicate n.title.length '=') ++ "\n\n" ++ b ++ "\n" := by
    rw [htxt, hb, py_str_or_some_empty]
    simp [String.append_assoc]
  refine ⟨c1, ?_, c3, ?_⟩
  · rw [c1]
    exact data_drop_header ("# " ++ n.title ++ "\n\n") b
  · rw [c3]
    exact data_drop_header
      (n.title ++ "\n" ++ String.mk (List.replicate n.title.length '=') ++ "\n\n") b

/-- Claim C5, witness: the amended rendering applied to the note titled T
with body B carrying a tag and an attachment, both ignored since metadata
is disabled. -/
theorem claim_C5_witness :
    render_note noteTB ["todo"] [⟨"r900", "pic", some "pic.png", some "image/png"⟩] []
        "md" false
      = "# " ++ "T" ++ "\n\n" ++ "B" ++ "\n" :=
  (claim_C5_body_render noteTB ["todo"] [⟨"r900", "pic", some "pic.png", some "image/png"⟩]
    [] "B" rfl).1

/-! ## Claim C8 — malformed escape handling -/

/-- Claim C8, counterexample: on the byte stream ESC x q Enter the code
swallows BOTH x and q (it always reads two bytes after ESC), returning
the empty line, while the spec state machine consumes only x after the
ESC and processes q as ordinary input, returning the line q. -/
theorem claim_C8_counterexample :
    raw_input_loop [] [] 0 ['\x1b', 'x', 'q', '\n'] = some []
  ∧ spec_editor_loop [] .normal [] 0 ['\x1b', 'x', 'q', '\n'] = some ['q']
  ∧ (some ([] : List Char) ≠ some ['q']) := by
  decide

/-- Claim C8 (amended): after an ESC byte the editor always consumes TWO
further bytes; when the first of them is not a bracket, both are
discarded with the buffer, cursor and history recall untouched, and
processing resumes at the byte after them. -/
theorem claim_C8_malformed_escape (hist : List (List Char)) (buf : List Char) (pos : Nat)
    (b c : Char) (rest : List Char) (hb : b ≠ '[') :
    raw_input_loop hist buf pos ('\x1b' :: b :: c :: rest)
      = raw_input_loop hist buf pos rest := by
  have h1 : ¬(('\x1b' : Char) = '\n' ∨ ('\x1b' : Char) = '\r') := by decide
  have h2 : ¬(('\x1b' : Char) = '\x03') := by decide
  simp only [raw_input_loop, if_neg h1, if_neg h2, if_pos rfl, if_neg hb]
  rw [if_pos trivial]

/-- Claim C8, witness: the two-byte swallow applied to the concrete
stream ESC x q Enter. -/
theorem claim_C8_witness :
    raw_input_loop [] [] 0 ['\x1b', 'x', 'q', '\n'] = raw_input_loop [] [] 0 ['\n'] :=
  claim_C8_malformed_escape [] [] 0 'x' 'q' ['\n'] (by decide)

/-! ## Claim C9 — Ctrl-C during line reading -/

/-- Claim C9: evaluation of the three backends on Ctrl-C.  The raw-mode
state machine and the plain fallback return the empty line and the
session survives, but in the readline branch the except-Exception
handler does not catch KeyboardInterrupt (a BaseException), safe_input
catches only EOFError, and no caller installs a handler, so the
exception terminates the interactive session — contradicting the
specified behavior; the surrounding code shows the spec is the intent. -/
theorem claim_C9_ctrlc_backends :
    safe_input_readline .ctrlC = .raised .keyboardInterrupt
  ∧ session_survives (safe_input_readline .ctrlC) = false
  ∧ raw_input_loop [] [] 0 ['\x03'] = some []
  ∧ plain_fallback_input .ctrlC = .line ""
  ∧ session_survives (plain_fallback_input .ctrlC) = true
  ∧ PyExc.caughtByExcept .keyboardInterrupt = false := by
  decide

end JoplinConsole
